import Mathlib

/-!
Shallow embedding of the state-management core of `src/shortcut.py`:

* file-identity tracking: `get_file_info`, `resolve_file_path` (with the
  POSIX `os.path` helpers `normpath`, `dirname`, `basename` they call);
* the bounded undo/redo history: `save_state_to_history`, `History.undo`,
  `History.redo`, and a heap-based model of
  `ShortcutsApp.restore_state_from_history` that makes dict aliasing explicit;
* marquee selection: `SelectionManager.on_start` / `on_drag` / `on_release`;
* group drag: `ShortcutButton.do_drag` position arithmetic;
* the two file-ingestion paths: `EditorWindow._process_new` and
  `ShortcutButton.drop_files_on_button`;
* the batch recolor path: `ShortcutButton.change_color` and
  `ShortcutsApp.batch_change_color`.

The filesystem, Tk widgets, and the yes/no dialogs are collaborators; they
are modelled as explicit inputs (`FS`, boolean / functional decision ports).
A probe that raises in Python is modelled as the collaborator returning
`none`.
-/

namespace ShortcutApp

/- ===================================================================
   POSIX path helpers used by the source (`os.path.normpath`,
   `os.path.dirname`, `os.path.basename`), modelled after CPython's
   `posixpath` implementations (the source runs them on plain strings).
   =================================================================== -/

/-- The leading-slash count of `posixpath.normpath`: `//` (exactly two) is
kept as two slashes per POSIX, one or three-plus collapse to one. -/
def initialSlashCount : List Char → Nat
  | '/' :: '/' :: '/' :: _ => 1
  | '/' :: '/' :: _ => 2
  | '/' :: _ => 1
  | _ => 0

/-- `"…".split("/")` on a char list: the list of `'/'`-separated segments
(empty segments included, as in Python). -/
def splitSlash : List Char → List (List Char)
  | [] => [[]]
  | c :: rest =>
    let r := splitSlash rest
    if c == '/' then [] :: r
    else
      match r with
      | h :: t => (c :: h) :: t
      | [] => [[c]]

/-- `"/".join(...)` on char-list segments. -/
def joinSlash : List (List Char) → List Char
  | [] => []
  | [x] => x
  | x :: rest => x ++ '/' :: joinSlash rest

/-- One step of `posixpath.normpath`'s component loop: skip `""` and `"."`;
keep `".."` only when the path is relative and nothing precedes it, or the
previous kept component is itself `".."`; otherwise `".."` pops the previous
component (or is dropped at the root of an absolute path). -/
def normStep (initialSlashes : Nat) (acc : List (List Char)) (comp : List Char) : List (List Char) :=
  if comp == [] || comp == ['.'] then acc
  else if comp != ['.', '.'] || (initialSlashes == 0 && acc.isEmpty) ||
          (!acc.isEmpty && acc.getLast? == some ['.', '.']) then acc ++ [comp]
  else if !acc.isEmpty then acc.dropLast
  else acc

/-- `os.path.normpath` for POSIX paths (CPython `posixpath.normpath`). -/
def normpath (p : String) : String :=
  if p = "" then "."
  else
    let l := p.data
    let initialSlashes := initialSlashCount l
    let comps := splitSlash l
    let newComps := comps.foldl (normStep initialSlashes) []
    let res := List.replicate initialSlashes '/' ++ joinSlash newComps
    if res = [] then "." else String.mk res

/-- Drop trailing `'/'` characters (`str.rstrip("/")` on a char list). -/
def rstripSlashes (l : List Char) : List Char :=
  (l.reverse.dropWhile (fun c => c == '/')).reverse

/-- `os.path.dirname` for POSIX paths: everything up to the final `'/'`,
with trailing slashes stripped unless the head is all slashes. -/
def dirname (p : String) : String :=
  let l := p.data
  match l.reverse.findIdx? (fun c => c == '/') with
  | none => ""
  | some k =>
    let head := l.take (l.length - k)
    if head.all (fun c => c == '/') then String.mk head
    else String.mk (rstripSlashes head)

/-- `os.path.basename` for POSIX paths: everything after the final `'/'`. -/
def basename (p : String) : String :=
  let l := p.data
  match l.reverse.findIdx? (fun c => c == '/') with
  | none => p
  | some k => String.mk (l.drop (l.length - k))

/- ===================================================================
   Filesystem collaborator.  Every probe the core makes is a field; a
   probe that would raise an exception in Python returns `none`.
   =================================================================== -/

/-- The filesystem as seen by the source's probes: `os.path.exists`,
`os.path.isdir`, `os.path.isfile`, `os.stat(...).st_ino` (`none` models a
raised exception), and `os.scandir` listing a directory's entries as full
paths (`none` models a raised exception). -/
structure FS where
  pathExists : String → Bool
  isdir : String → Bool
  isfile : String → Bool
  statIno : String → Option Nat
  scandir : String → Option (List String)

/- ===================================================================
   FileReference: `get_file_info` / `resolve_file_path`
   (src/shortcut.py lines 33-79).
   =================================================================== -/

/-- A file entry: either a legacy bare string (old saves) or a tracked
dict `{"path": ..., "inode": ..., "parent": ...}`; a missing `"path"` or
`"parent"` key reads as `""` via `.get`, a missing `"inode"` as `none`. -/
inductive FileEntry where
  | legacy (s : String)
  | tracked (path : String) (inode : Option Nat) (parent : String)
deriving DecidableEq, Repr

/-- `get_file_info(path)`: normalize, try to read the inode (an exception
stores `None`), and record the parent directory. -/
def get_file_info (fs : FS) (path : String) : FileEntry :=
  let p := normpath path
  .tracked p (fs.statIno p) (dirname p)

/-- The scan loop inside `resolve_file_path`: return the first directory
entry whose inode matches; a `stat` failure on one entry is swallowed and
scanning continues. -/
def scanMatch (fs : FS) (inode : Nat) : List String → Option String
  | [] => none
  | e :: rest =>
    match fs.statIno e with
    | some i => if i = inode then some e else scanMatch fs inode rest
    | none => scanMatch fs inode rest

/-- Python truthiness of the stored inode: `None` and `0` are falsy. -/
def inodeTruthy : Option Nat → Bool
  | none => false
  | some n => !(n == 0)

/-- `resolve_file_path(file_entry)`: legacy strings are returned unchanged;
an existing stored path is returned as-is; otherwise, when inode and parent
are truthy and the parent is a directory, scan it for a matching inode and
cache the discovered path in the entry; in every remaining case return the
stale stored path.  The returned pair is (resolved path, entry after the
in-place cache update). -/
def resolve_file_path (fs : FS) : FileEntry → String × FileEntry
  | .legacy s => (s, .legacy s)
  | .tracked path inode parent =>
    if fs.pathExists path then (path, .tracked path inode parent)
    else if inodeTruthy inode && !(parent == "") && fs.isdir parent then
      match fs.scandir parent, inode with
      | some entries, some ino =>
        (match scanMatch fs ino entries with
         | some newPath => (newPath, .tracked newPath inode parent)
         | none => (path, .tracked path inode parent))
      | _, _ => (path, .tracked path inode parent)
    else (path, .tracked path inode parent)

/-- Resolve every entry of a file list in order, threading the in-place
cache updates (the set comprehension
`{resolve_file_path(f) for f in file_list}` both reads and mutates). -/
def resolveAll (fs : FS) : List FileEntry → List FileEntry × List String
  | [] => ([], [])
  | e :: rest =>
    let r := resolve_file_path fs e
    let tail := resolveAll fs rest
    (r.2 :: tail.1, r.1 :: tail.2)

/- ===================================================================
   HistoryManager: `save_state_to_history` / `undo` / `redo`
   (src/shortcut.py lines 1044-1070), value-level model.  Snapshots are
   abstract (`copy.deepcopy` is value copying at this level; the heap
   model further below makes the aliasing of `restore_state_from_history`
   observable).
   =================================================================== -/

/-- `self.history` together with `self.history_index`. -/
structure History (α : Type) where
  entries : List α
  index : Int
deriving DecidableEq, Repr

/-- Initial state: `self.history = []`, `self.history_index = -1`. -/
def History.empty {α : Type} : History α := ⟨[], -1⟩

/-- `save_state_to_history`: truncate the redo branch when the cursor is
not at the last index, append the snapshot, advance the cursor, and on
overflow pop the oldest entry and decrement the cursor. -/
def save_state_to_history {α : Type} (cap : Nat) (h : History α) (s : α) : History α :=
  let entries :=
    if h.index < (h.entries.length : Int) - 1 then h.entries.take (h.index + 1).toNat
    else h.entries
  let entries := entries ++ [s]
  let index := h.index + 1
  if entries.length > cap then ⟨entries.drop 1, index - 1⟩
  else ⟨entries, index⟩

/-- `undo`: move the cursor back when possible (the subsequent
`restore_state_from_history` is modelled separately). -/
def History.undo {α : Type} (h : History α) : History α :=
  if h.index > 0 then { h with index := h.index - 1 } else h

/-- `redo`: move the cursor forward when possible. -/
def History.redo {α : Type} (h : History α) : History α :=
  if h.index < (h.entries.length : Int) - 1 then { h with index := h.index + 1 } else h

/- ===================================================================
   DragTransformEngine: `ShortcutsApp.snap_to_grid` (lines 1039-1042)
   and the group-move arithmetic of `ShortcutButton.do_drag`
   (lines 447-490).
   =================================================================== -/

/-- Python's `round(num / den)` for integer `num` and positive integer
`den`: round half to even (banker's rounding).  With the app's grid size 5
and integer coordinates the quotient is never exactly halfway and the
float division of the source is exact enough for this to agree. -/
def pyRound (num den : Int) : Int :=
  let q := num / den
  let r := num % den
  if 2 * r < den then q
  else if den < 2 * r then q + 1
  else if q % 2 = 0 then q else q + 1

/-- `snap_to_grid`: `round(x / grid_size) * grid_size` per axis. -/
def snap_to_grid (g : Int) (x y : Int) : Int × Int :=
  (pyRound x g * g, pyRound y g * g)

/-- A selected shortcut as seen by `do_drag`: its `multi_drag_start`
position and its widget footprint. -/
structure DragTile where
  startX : Int
  startY : Int
  w : Int
  h : Int
deriving DecidableEq, Repr

/-- The position arithmetic of one `do_drag` motion event for the whole
selection: the primary's unconstrained position `(ux, uy)`
(`winfo_x() + event.x - offset`) is snapped, then clamped to the frame
minus its own footprint; the resulting delta from the primary's
`multi_drag_start` is added to every selected tile's `multi_drag_start`,
and each candidate is snapped and clamped independently. -/
def do_drag_positions (g masterW masterH : Int) (primary : DragTile) (ux uy : Int)
    (selected : List DragTile) : List (Int × Int) :=
  let s := snap_to_grid g ux uy
  let nx := max 0 (min s.1 (masterW - primary.w))
  let ny := max 0 (min s.2 (masterH - primary.h))
  let dx := nx - primary.startX
  let dy := ny - primary.startY
  selected.map (fun b =>
    let c := snap_to_grid g (b.startX + dx) (b.startY + dy)
    (max 0 (min c.1 (masterW - b.w)), max 0 (min c.2 (masterH - b.h))))

/-- The per-tile position formula exactly as claim C8 words it: the delta
is taken from the primary's UNCONSTRAINED new position, then the candidate
is snapped per axis and clamped. -/
def group_drag_claim_formula (g masterW masterH : Int) (primary : DragTile) (ux uy : Int)
    (b : DragTile) : Int × Int :=
  let dx := ux - primary.startX
  let dy := uy - primary.startY
  let c := snap_to_grid g (b.startX + dx) (b.startY + dy)
  (max 0 (min c.1 (masterW - b.w)), max 0 (min c.2 (masterH - b.h)))

/-- The per-tile position formula as amended: the delta is taken from the
primary's new position AFTER grid snapping and clamping; the candidate is
then snapped per axis and clamped independently. -/
def group_drag_amended_formula (g masterW masterH : Int) (primary : DragTile) (ux uy : Int)
    (b : DragTile) : Int × Int :=
  let s := snap_to_grid g ux uy
  let nx := max 0 (min s.1 (masterW - primary.w))
  let ny := max 0 (min s.2 (masterH - primary.h))
  let c := snap_to_grid g (b.startX + (nx - primary.startX)) (b.startY + (ny - primary.startY))
  (max 0 (min c.1 (masterW - b.w)), max 0 (min c.2 (masterH - b.h)))

/- ===================================================================
   SelectionModel: `SelectionManager.on_start` / `on_drag` / `on_release`
   (lines 721-847).  `update_selection_preview` only toggles border
   highlighting, never the `selected` flags, so it is not part of the
   selection state.
   =================================================================== -/

/-- A shortcut tile as the marquee sees it: widget geometry plus its
`selected` flag. -/
structure Tile where
  x : Int
  y : Int
  w : Int
  h : Int
  selected : Bool
deriving DecidableEq, Repr

/-- `SelectionManager`'s own mutable fields. -/
structure SelState where
  startX : Option Int
  startY : Option Int
  rect : Option (Int × Int × Int × Int)
  isDragging : Bool
deriving DecidableEq, Repr

/-- `ShortcutsApp.clear_selection`: deselect every button. -/
def clear_selection (ts : List Tile) : List Tile :=
  ts.map (fun t => { t with selected := false })

/-- `on_start` for a press that landed on empty background: capture the
anchor and begin dragging. -/
def sel_on_start (s : SelState) (x y : Int) : SelState :=
  { s with startX := some x, startY := some y, isDragging := true }

/-- `on_drag`: create the rectangle on the first motion event and set its
coordinates to (anchor, current point).  (The live preview only changes
border highlighting, not selection.) -/
def sel_on_drag (s : SelState) (x y : Int) : SelState :=
  if s.isDragging then
    { s with rect := some (s.startX.getD 0, s.startY.getD 0, x, y) }
  else s

/-- `on_release`: with no rectangle (a plain click), a no-modifier click
clears the entire selection and a modifier click does nothing; with a
rectangle, sort its corners and, only when both extents strictly exceed 10,
additively select every overlapping tile; then reset the manager state. -/
def sel_on_release (s : SelState) (modifier : Bool) (ts : List Tile) :
    SelState × List Tile :=
  if !s.isDragging then (s, ts)
  else
    let ts1 :=
      match s.rect with
      | none => if !modifier then clear_selection ts else ts
      | some (a, b, c, d) =>
        let x1 := min a c
        let x2 := max a c
        let y1 := min b d
        let y2 := max b d
        if 10 < |x2 - x1| ∧ 10 < |y2 - y1| then
          ts.map (fun t =>
            if x1 < t.x + t.w ∧ t.x < x2 ∧ y1 < t.y + t.h ∧ t.y < y2 then
              { t with selected := true }
            else t)
        else ts
    (⟨none, none, none, false⟩, ts1)

/-- A whole marquee gesture on background: press at the anchor, a list of
motion events, then release with or without a modifier key; returns the
resulting tile list. -/
def run_marquee (ts : List Tile) (ax ay : Int) (drags : List (Int × Int))
    (modifier : Bool) : List Tile :=
  let s := sel_on_start ⟨none, none, none, false⟩ ax ay
  let s := drags.foldl (fun st q => sel_on_drag st q.1 q.2) s
  (sel_on_release s modifier ts).2

/- ===================================================================
   File ingestion: `EditorWindow._process_new` (lines 290-300) and
   `ShortcutButton.drop_files_on_button` (lines 372-407).
   =================================================================== -/

/-- The loop of `_process_new`: for each path (normalized), a duplicate of
a previously seen resolved path consults the yes/no port; "no" skips it,
"yes" or no match appends a freshly tracked entry and records the path. -/
def process_new_loop (fs : FS) (confirm : String → Bool) :
    List FileEntry → List String → List String → List FileEntry
  | fl, _, [] => fl
  | fl, seen, p :: rest =>
    let p := normpath p
    if seen.contains p && !confirm p then process_new_loop fs confirm fl seen rest
    else process_new_loop fs confirm (fl ++ [get_file_info fs p]) (seen ++ [p]) rest

/-- `EditorWindow._process_new`: seed the seen-set with the resolved
current paths of the existing entries (resolution threads its cache
updates through the list), then run the per-path loop. -/
def process_new (fs : FS) (confirm : String → Bool) (fileList : List FileEntry)
    (paths : List String) : List FileEntry :=
  let r := resolveAll fs fileList
  process_new_loop fs confirm r.1 r.2 paths

/-- `ShortcutButton.drop_files_on_button`: normalize the dropped items,
keep only those that are currently a file or a directory, split them into
duplicates (already among the resolved existing paths; recorded by
basename) and new files; when there are duplicates a single yes/no batch
dialog is shown and "no" additionally removes every new file whose
basename matches a duplicate's; finally the remaining new files are
appended as tracked entries.  Duplicates themselves are never in
`new_files`, so they are never appended regardless of the answer. -/
def drop_files_on_button (fs : FS) (confirmBatch : Bool) (dataFiles : List FileEntry)
    (items : List String) : List FileEntry :=
  let files := items.map (fun s => normpath s)
  let r := resolveAll fs dataFiles
  let updated := r.1
  let existing := r.2
  let kept := files.filter (fun f => fs.isfile f || fs.isdir f)
  let duplicates := (kept.filter (fun f => existing.contains f)).map basename
  let newFiles := kept.filter (fun f => !existing.contains f)
  let newFiles :=
    if !duplicates.isEmpty && !confirmBatch then
      newFiles.filter (fun f => !duplicates.contains (basename f))
    else newFiles
  if !newFiles.isEmpty then updated ++ newFiles.map (get_file_info fs)
  else updated

/- ===================================================================
   Batch recolor: `ShortcutButton.change_color` (lines 586-591) and the
   `apply_color` closure of `ShortcutsApp.batch_change_color`
   (lines 1165-1204).  `save_data` is persistence-collaborator I/O and
   has no effect on the modelled state.
   =================================================================== -/

/-- A button as the recolor path sees it. -/
structure Btn4 where
  name : String
  color : String
  selected : Bool
deriving DecidableEq, Repr

/-- App state for the recolor path: live buttons, the configuration map,
and the history of `(buttons, config)` snapshots with its capacity. -/
structure App4 where
  buttons : List Btn4
  config : List (String × String)
  history : History (List Btn4 × List (String × String))
  cap : Nat
deriving DecidableEq, Repr

/-- `save_state_to_history` on the app: snapshot the current buttons and
config (deep copy is value copying here). -/
def App4.push (a : App4) : App4 :=
  { a with history := save_state_to_history a.cap a.history (a.buttons, a.config) }

/-- Set the color of the i-th button. -/
def setColorAt : List Btn4 → Nat → String → List Btn4
  | [], _, _ => []
  | b :: rest, 0, c => { b with color := c } :: rest
  | b :: rest, n + 1, c => b :: setColorAt rest n c

/-- `ShortcutButton.change_color`: set the button's color, save, and push
one history checkpoint. -/
def change_color (a : App4) (i : Nat) (c : String) : App4 :=
  App4.push { a with buttons := setColorAt a.buttons i c }

/-- Indices of the currently selected buttons
(`[btn for btn in self.buttons if btn.selected]`). -/
def selectedIdxs (l : List Btn4) : List Nat :=
  (List.range l.length).filter (fun i => (l.getD i ⟨"", "", false⟩).selected)

/-- `ShortcutsApp.batch_change_color` with a color chosen in the dialog:
the `apply_color` closure calls `btn.change_color(color)` for every
selected button and then pushes one more checkpoint itself. -/
def batch_change_color (a : App4) (c : String) : App4 :=
  let idxs := selectedIdxs a.buttons
  if idxs.isEmpty then a
  else App4.push (idxs.foldl (fun s i => change_color s i c) a)

/- ===================================================================
   Undo/redo restore with explicit aliasing:
   `ShortcutsApp.restore_state_from_history` (lines 1072-1084) together
   with `create_shortcut_button` (lines 1666-1700).  Python dicts are
   modelled as cells of an explicit heap; an address is a heap index.
   `save_state_to_history` deep-copies (fresh cells), but the restore
   path hands the entry's own dicts to `create_shortcut_button`, which
   keeps them as the live `btn.data`.  The orthogonal `files` list and
   the flat config map (restored via `.copy()`) are elided.
   =================================================================== -/

/-- The contents of one `btn.data` dict. -/
structure BtnData where
  name : String
  x : Int
  y : Int
  color : String
deriving DecidableEq, Repr

/-- Default used only for out-of-range heap reads (never hit in the
scenarios below). -/
def dfltBtn : BtnData := ⟨"", 0, 0, ""⟩

/-- App state with the dict heap made explicit: `buttons` holds the
addresses of the live `btn.data` dicts; each history entry holds the
addresses of its snapshot dicts. -/
structure App1 where
  heap : List BtnData
  buttons : List Nat
  history : List (List Nat)
  historyIndex : Int
deriving DecidableEq, Repr

/-- Read a dict from the heap. -/
def App1.read (a : App1) (addr : Nat) : BtnData := a.heap.getD addr dfltBtn

/-- `save_state_to_history` in the heap model: `to_dict` each live button
and `copy.deepcopy` the result — fresh cells are allocated and the new
entry stores their addresses; then truncate / append / overflow exactly as
in the value model. -/
def save_state_to_history1 (cap : Nat) (a : App1) : App1 :=
  let vals := a.buttons.map a.read
  let base := a.heap.length
  let entry := (List.range vals.length).map (fun i => base + i)
  let hist :=
    if a.historyIndex < (a.history.length : Int) - 1 then
      a.history.take (a.historyIndex + 1).toNat
    else a.history
  let hist := hist ++ [entry]
  let idx := a.historyIndex + 1
  if hist.length > cap then
    { a with heap := a.heap ++ vals, history := hist.drop 1, historyIndex := idx - 1 }
  else
    { a with heap := a.heap ++ vals, history := hist, historyIndex := idx }

/-- `create_shortcut_button(data)`: clamp the dict's position in place and
keep THE SAME dict as the new live button's `btn.data` (its address joins
`self.buttons`). -/
def create_shortcut_button1 (maxX maxY : Int) (a : App1) (addr : Nat) : App1 :=
  let d := a.read addr
  let d := { d with x := max 8 (min d.x maxX), y := max 8 (min d.y maxY) }
  { a with heap := a.heap.set addr d, buttons := a.buttons ++ [addr] }

/-- `restore_state_from_history`: destroy the live buttons and rebuild
them by passing each of the entry's own dicts to
`create_shortcut_button`. -/
def restore_state_from_history1 (maxX maxY : Int) (a : App1) : App1 :=
  if 0 ≤ a.historyIndex ∧ a.historyIndex < (a.history.length : Int) then
    let entry := a.history.getD a.historyIndex.toNat []
    entry.foldl (create_shortcut_button1 maxX maxY) { a with buttons := [] }
  else a

/-- `undo`: decrement the cursor and restore. -/
def App1.undo (maxX maxY : Int) (a : App1) : App1 :=
  if a.historyIndex > 0 then
    restore_state_from_history1 maxX maxY { a with historyIndex := a.historyIndex - 1 }
  else a

/-- The position write-back of `click_release` after a completed drag:
`btn.data["x"] = winfo_x(); btn.data["y"] = winfo_y()` for the dragged
button, followed by one history checkpoint. -/
def click_release_commit (cap : Nat) (a : App1) (i : Nat) (nx ny : Int) : App1 :=
  let a :=
    match a.buttons.get? i with
    | some addr =>
      let d := a.read addr
      { a with heap := a.heap.set addr { d with x := nx, y := ny } }
    | none => a
  save_state_to_history1 cap a

/-- The dict contents a history entry currently points at. -/
def entryContents1 (a : App1) (i : Nat) : List BtnData :=
  (a.history.getD i []).map a.read

/- Concrete C1 scenario: one shortcut "A" at (10, 10); startup checkpoint;
drag it to (20, 20) and checkpoint; undo; drag the restored button to
(30, 30) and checkpoint. -/

/-- Initial state: one live button dict, empty history. -/
def c1_s0 : App1 := ⟨[⟨"A", 10, 10, "#1f6aa5"⟩], [0], [], -1⟩

/-- After the startup checkpoint (`load_buttons_from_data`). -/
def c1_s1 : App1 := save_state_to_history1 50 c1_s0

/-- After dragging to (20, 20) and the drag-end checkpoint. -/
def c1_s2 : App1 := click_release_commit 50 c1_s1 0 20 20

/-- After undo (cursor back to the first entry, restore). -/
def c1_s3 : App1 := App1.undo 700 500 c1_s2

/-- After dragging the restored button to (30, 30) and its checkpoint. -/
def c1_s4 : App1 := click_release_commit 50 c1_s3 0 30 30

/- ===================================================================
   Concrete fixtures for the claims.
   =================================================================== -/

/-- Claim C2's concrete run: capacity 2, pushes of s0, s1, s2 from empty. -/
def c2_pushes : History Nat :=
  save_state_to_history 2 (save_state_to_history 2
    (save_state_to_history 2 History.empty 0) 1) 2

/-- Claim C3's concrete run: push s0, push s1, undo, push s2 (the app's
capacity 50). -/
def c3_pushes : History Nat :=
  save_state_to_history 50 (History.undo (save_state_to_history 50
    (save_state_to_history 50 History.empty 0) 1)) 2

/-- Two selected buttons about to be batch-recolored. -/
def c4_buttons : List Btn4 :=
  [⟨"A", "#1f6aa5", true⟩, ⟨"B", "#1f6aa5", true⟩]

/-- App state before the batch recolor: one startup checkpoint, cursor on
it. -/
def c4_start : App4 :=
  ⟨c4_buttons, [("bg", "#f5f5f5")], ⟨[(c4_buttons, [("bg", "#f5f5f5")])], 0⟩, 50⟩

/-- One already-selected tile, far away from the tiny marquee gesture. -/
def c5_tiles : List Tile := [⟨100, 100, 80, 20, true⟩]

/-- Filesystem for C6: a single file `d/a` with inode 1. -/
def fs6 : FS :=
  ⟨fun s => s == "d/a", fun _ => false, fun s => s == "d/a",
   fun s => if s == "d/a" then some 1 else none, fun _ => none⟩

/-- A shortcut's sole tracked entry, pointing at `d/a`. -/
def e6 : FileEntry := .tracked "d/a" (some 1) "d"

/-- Filesystem for C7's counterexample: `a/b` exists, and (as on a real
POSIX system) so does its non-normalized spelling `a//b`. -/
def fs7 : FS :=
  ⟨fun s => s == "a/b" || s == "a//b", fun _ => false, fun _ => false,
   fun _ => none, fun _ => none⟩

/-- Filesystem for C7's witness: `a/b` exists. -/
def fs7w : FS :=
  ⟨fun s => s == "a/b", fun _ => false, fun _ => false,
   fun _ => none, fun _ => none⟩

/-- Filesystem for C9's witness: the stored path exists. -/
def fs9w : FS :=
  ⟨fun _ => true, fun _ => false, fun _ => false, fun _ => none, fun _ => none⟩

/-- Filesystem for C10: `d/old` is gone; the parent `d` holds `d/new`
whose inode is 0 — an inode-0 entry the scan would match. -/
def c10_fs_zero : FS :=
  ⟨fun _ => false, fun s => s == "d", fun _ => false,
   fun s => if s == "d/new" then some 0 else none,
   fun s => if s == "d" then some ["d/new"] else none⟩

/-- Same situation but with the nonzero inode 7, where the scan runs and
recovers the renamed file. -/
def c10_fs_seven : FS :=
  ⟨fun _ => false, fun s => s == "d", fun _ => false,
   fun s => if s == "d/new" then some 7 else none,
   fun s => if s == "d" then some ["d/new"] else none⟩

/- ===================================================================
   Helper lemmas.
   =================================================================== -/

/-- Folding `on_drag` motion events over a started marquee: after at least
one motion event the rectangle spans the anchor and the last motion point,
and the anchor and dragging flag are untouched. -/
theorem foldDrag_concat (ax ay : Int) (l : List (Int × Int)) (q : Int × Int)
    (r : Option (Int × Int × Int × Int)) :
    (l ++ [q]).foldl (fun st p => sel_on_drag st p.1 p.2) ⟨some ax, some ay, r, true⟩ =
      ⟨some ax, some ay, some (ax, ay, q.1, q.2), true⟩ := by
  induction l generalizing r with
  | nil => simp [sel_on_drag]
  | cons p l ih => simpa [sel_on_drag] using ih (some (ax, ay, p.1, p.2))

/- ===================================================================
   Claim theorems.
   =================================================================== -/

/-- Claim C1 (code bug evidence): the claim says applying a history entry
installs fresh deep copies, so subsequent live mutation never changes a
stored entry.  In the code, `restore_state_from_history` hands the entry's
own dicts to `create_shortcut_button`, which keeps them as live `btn.data`.
Scenario: one shortcut "A" at (10, 10); startup checkpoint; drag to
(20, 20) with checkpoint; undo; drag the restored button to (30, 30).
The first history entry held `(10, 10)` when it was pushed; after the
post-undo drag the same entry reads `(30, 30)` — live state aliases the
snapshot (the restored button's data address `1` is the entry's own cell). -/
theorem restore_state_aliases_history :
    entryContents1 c1_s1 0 = [⟨"A", 10, 10, "#1f6aa5"⟩] ∧
    c1_s3.buttons = [1] ∧ 1 ∈ c1_s3.history.getD 0 [] ∧
    entryContents1 c1_s4 0 = [⟨"A", 30, 30, "#1f6aa5"⟩] := by decide

/-- Claim C2: a push onto a history whose cursor sits on the last entry of
a full history appends the snapshot, drops the oldest entry and leaves the
cursor at `capacity - 1` (decremented by one after the append); and
concretely, with capacity 2, pushing s0, s1, s2 from empty yields
`entries = [s1, s2]`, `cursor = 1`. -/
theorem save_state_overflow :
    (∀ (α : Type) (cap : Nat) (h : History α) (s : α),
        h.index = (h.entries.length : Int) - 1 →
        h.entries.length = cap → 0 < cap →
        save_state_to_history cap h s = ⟨h.entries.drop 1 ++ [s], (cap : Int) - 1⟩) ∧
    c2_pushes = ⟨[1, 2], 1⟩ := by
  constructor
  · intro α cap h s h1 h2 h3
    obtain ⟨es, ix⟩ := h
    simp only [History.index, History.entries] at h1 h2
    simp only [save_state_to_history]
    rw [if_neg (show ¬ (ix < (es.length : Int) - 1) by omega)]
    rw [if_pos (show (es ++ [s]).length > cap by
      simp only [List.length_append, List.length_cons, List.length_nil]; omega)]
    cases es with
    | nil => simp at h2; omega
    | cons e t =>
      have hix : ix + 1 - 1 = (cap : Int) - 1 := by
        simp only [List.length_cons] at h1 h2; omega
      rw [hix]; rfl
  · decide

/-- Witness for C2 at a concrete full history. -/
theorem save_state_overflow_witness :
    save_state_to_history 2 (⟨[10, 20], 1⟩ : History Nat) 30 = ⟨[20, 30], 1⟩ :=
  save_state_overflow.1 Nat 2 ⟨[10, 20], 1⟩ 30 (by decide) (by decide) (by decide)

/-- Claim C3: when the cursor is not at the last index, a push first
discards every entry after the cursor, then appends the snapshot with the
cursor moved to the new last index; concretely push s0, push s1, undo,
push s2 yields `entries = [s0, s2]`, `cursor = 1`, and a subsequent redo
is a no-op. -/
theorem save_state_branch_discard :
    (∀ (α : Type) (cap : Nat) (h : History α) (s : α),
        0 ≤ h.index → h.index < (h.entries.length : Int) - 1 →
        h.entries.length ≤ cap →
        save_state_to_history cap h s =
          ⟨h.entries.take (h.index + 1).toNat ++ [s], h.index + 1⟩) ∧
    (c3_pushes = ⟨[0, 2], 1⟩ ∧ c3_pushes.redo = c3_pushes) := by
  constructor
  · intro α cap h s h0 h1 h2
    obtain ⟨es, ix⟩ := h
    simp only [History.index, History.entries] at h0 h1 h2 ⊢
    simp only [save_state_to_history]
    rw [if_pos h1]
    rw [if_neg (by
      simp only [List.length_append, List.length_take, List.length_cons,
        List.length_nil]
      omega)]
  · decide

/-- Witness for C3 at a concrete mid-history cursor. -/
theorem save_state_branch_discard_witness :
    save_state_to_history 50 (⟨[10, 20], 0⟩ : History Nat) 30 = ⟨[10, 30], 1⟩ :=
  save_state_branch_discard.1 Nat 50 ⟨[10, 20], 0⟩ 30 (by decide) (by decide) (by decide)

/-- Claim C4 (code bug evidence): the claim says a batch recolor of N
selected shortcuts pushes exactly one snapshot.  In the code,
`apply_color` calls `ShortcutButton.change_color` per selected button —
and `change_color` itself pushes a checkpoint — before pushing one more.
Concretely, recoloring 2 selected buttons grows the history from 1 to 4
entries: one per-item snapshot after each button, plus a final snapshot
that duplicates the last per-item one. -/
theorem batch_recolor_checkpoints_per_item :
    (batch_change_color c4_start "#d42c2c").history.entries.length = 4 ∧
    (batch_change_color c4_start "#d42c2c").history.entries.map (fun e => e.1.map Btn4.color) =
      [["#1f6aa5", "#1f6aa5"], ["#d42c2c", "#1f6aa5"],
       ["#d42c2c", "#d42c2c"], ["#d42c2c", "#d42c2c"]] := by decide

/-- Claim C5 counterexample: a marquee gesture with one small motion event
(anchor (2,3), drag to (7,8) — the rectangle never exceeds the 10-unit
threshold), released without a modifier, does NOT clear the selection: the
rectangle exists, so `on_release` takes the drag branch and leaves the
tiles untouched, while the claim says the Selection is cleared. -/
theorem marquee_small_drag_counterexample :
    (∀ q ∈ [((7 : Int), (8 : Int))],
        ¬ (10 < max 2 q.1 - min 2 q.1 ∧ 10 < max 3 q.2 - min 3 q.2)) ∧
    run_marquee c5_tiles 2 3 [(7, 8)] false = c5_tiles ∧
    c5_tiles ≠ clear_selection c5_tiles := by decide

/-- Claim C5 as amended: if the gesture had no drag motion at all (no
rectangle was created), a no-modifier release clears the entire Selection
and a modifier release leaves it unchanged; once any motion created the
rectangle, a release whose final rectangle does not exceed the 10-unit
threshold in both axes leaves the Selection unchanged regardless of the
modifier. -/
theorem marquee_release_amended :
    (∀ (ts : List Tile) (ax ay : Int),
        run_marquee ts ax ay [] false = clear_selection ts ∧
        run_marquee ts ax ay [] true = ts) ∧
    (∀ (ts : List Tile) (ax ay : Int) (l : List (Int × Int)) (q : Int × Int) (m : Bool),
        ¬ (10 < max ax q.1 - min ax q.1 ∧ 10 < max ay q.2 - min ay q.2) →
        run_marquee ts ax ay (l ++ [q]) m = ts) := by
  constructor
  · exact fun ts ax ay => ⟨rfl, rfl⟩
  · intro ts ax ay l q m hq
    unfold run_marquee
    dsimp only [sel_on_start]
    rw [foldDrag_concat]
    have h1 : ¬ (10 < |max ax q.1 - min ax q.1| ∧ 10 < |max ay q.2 - min ay q.2|) := by
      rw [abs_of_nonneg (by omega : (0 : Int) ≤ max ax q.1 - min ax q.1),
          abs_of_nonneg (by omega : (0 : Int) ≤ max ay q.2 - min ay q.2)]
      exact hq
    dsimp only [sel_on_release]
    rw [if_neg h1]; rfl

/-- Witness for the amended C5 at a concrete sub-threshold gesture. -/
theorem marquee_release_amended_witness :
    run_marquee c5_tiles 2 3 ([] ++ [((7 : Int), (8 : Int))]) false = c5_tiles :=
  marquee_release_amended.2 c5_tiles 2 3 [] (7, 8) false (by decide)

/-- Claim C6 (code bug evidence): the claim (and the dialog's own "Add
them anyway?" text) says a duplicate path is appended when the port
answers yes.  In `drop_files_on_button` a duplicate never enters
`new_files`, so with one tracked file `d/a` and `d/a` dropped again,
answering yes (or no) leaves the file list unchanged; the editor path
`_process_new` does conform: per-path consult, yes appends a fresh tracked
entry, no skips it. -/
theorem drop_duplicate_confirm_adds_nothing :
    drop_files_on_button fs6 true [e6] ["d/a"] = [e6] ∧
    drop_files_on_button fs6 false [e6] ["d/a"] = [e6] ∧
    process_new fs6 (fun _ => true) [e6] ["d/a"] = [e6, .tracked "d/a" (some 1) "d"] ∧
    process_new fs6 (fun _ => false) [e6] ["d/a"] = [e6] := by decide

/-- Claim C7 counterexample: `p = "a//b"` exists at resolution time (as it
does on a POSIX system whenever `a/b` exists), yet
`resolve(create(p)) = "a/b" ≠ p`, because `get_file_info` stores the
normalized path. -/
theorem resolve_create_counterexample :
    fs7.pathExists "a//b" = true ∧
    (resolve_file_path fs7 (get_file_info fs7 "a//b")).1 = "a/b" ∧
    "a/b" ≠ "a//b" := by decide

/-- Claim C7 as amended: for every path `p` in normalized form
(`normpath p = p`) that exists at resolution time,
`resolve(create(p)) = p` (in general the result is `normpath p`). -/
theorem resolve_create_roundtrip (fs : FS) (p : String)
    (hn : normpath p = p) (he : fs.pathExists p = true) :
    (resolve_file_path fs (get_file_info fs p)).1 = p := by
  unfold get_file_info
  rw [hn]
  simp [resolve_file_path, he]

/-- Witness for the amended C7 at the existing normalized path `a/b`. -/
theorem resolve_create_roundtrip_witness :
    (resolve_file_path fs7w (get_file_info fs7w "a/b")).1 = "a/b" :=
  resolve_create_roundtrip fs7w "a/b" (by decide) (by decide)

/-- Claim C8 counterexample: with grid 5, primary drag-start (10,10), a
second tile at drag-start (12,10) and unconstrained primary position
(32,14), the code places the second tile at (30,15) — its delta comes from
the primary's snapped-and-clamped position (30,15) — while the claim's
formula (delta from the unconstrained position) yields (35,15). -/
theorem group_drag_delta_counterexample :
    do_drag_positions 5 800 600 ⟨10, 10, 80, 20⟩ 32 14 [⟨10, 10, 80, 20⟩, ⟨12, 10, 80, 20⟩] =
      [(30, 15), (30, 15)] ∧
    group_drag_claim_formula 5 800 600 ⟨10, 10, 80, 20⟩ 32 14 ⟨12, 10, 80, 20⟩ = (35, 15) ∧
    ((30 : Int), (15 : Int)) ≠ ((35 : Int), (15 : Int)) := by decide

/-- Claim C8 as amended: every selected shortcut's new position is its
drag-start position plus the delta between the primary's SNAPPED AND
CLAMPED new position and the primary's drag-start position, snapped per
axis to the grid and clamped independently to the canvas bounds minus its
footprint; the claim's concrete instance is unaffected: with grid 5,
drag-starts (10,10) and (50,10) and unconstrained primary (33,14), the
primary lands at (35,15) and the other tile at (75,15). -/
theorem group_drag_amended :
    (∀ (g mw mh : Int) (p : DragTile) (ux uy : Int) (sel : List DragTile),
        do_drag_positions g mw mh p ux uy sel =
          sel.map (group_drag_amended_formula g mw mh p ux uy)) ∧
    do_drag_positions 5 800 600 ⟨10, 10, 80, 20⟩ 33 14 [⟨10, 10, 80, 20⟩, ⟨50, 10, 80, 20⟩] =
      [(35, 15), (75, 15)] :=
  ⟨fun _ _ _ _ _ _ _ => rfl, by decide⟩

/-- Claim C9: resolution is total over every combination of collaborator
outcomes and never fails the call: a legacy string is returned unchanged
(and unmutated); an existing stored path is returned as-is; with a falsy
inode, empty parent or non-directory parent the stored (possibly stale)
path is returned; a completed scan without a match, or a scan that raises,
also returns the stored path; and a stat error on one candidate entry is
swallowed, scanning continuing with the rest. -/
theorem resolve_never_fails :
    (∀ (fs : FS) (s : String), resolve_file_path fs (.legacy s) = (s, .legacy s)) ∧
    (∀ (fs : FS) (path : String) (inode : Option Nat) (parent : String),
        fs.pathExists path = true →
        resolve_file_path fs (.tracked path inode parent) =
          (path, .tracked path inode parent)) ∧
    (∀ (fs : FS) (path parent : String) (inode : Option Nat),
        inodeTruthy inode = false ∨ parent = "" ∨ fs.isdir parent = false →
        (resolve_file_path fs (.tracked path inode parent)).1 = path) ∧
    (∀ (fs : FS) (path parent : String) (ino : Nat) (es : List String),
        fs.scandir parent = some es → scanMatch fs ino es = none →
        (resolve_file_path fs (.tracked path (some ino) parent)).1 = path) ∧
    (∀ (fs : FS) (path parent : String) (ino : Nat),
        fs.scandir parent = none →
        (resolve_file_path fs (.tracked path (some ino) parent)).1 = path) ∧
    (∀ (fs : FS) (ino : Nat) (e : String) (rest : List String),
        fs.statIno e = none → scanMatch fs ino (e :: rest) = scanMatch fs ino rest) := by
  refine ⟨fun fs s => rfl, ?_, ?_, ?_, ?_, ?_⟩
  · intro fs path inode parent he
    simp [resolve_file_path, he]
  · intro fs path parent inode hd
    cases hpe : fs.pathExists path with
    | true => simp [resolve_file_path, hpe]
    | false =>
      have hg : (inodeTruthy inode && !(parent == "") && fs.isdir parent) = false := by
        rcases hd with h | h | h <;> simp [h]
      simp [resolve_file_path, hpe, hg]
  · intro fs path parent ino es hs hm
    cases hpe : fs.pathExists path with
    | true => simp [resolve_file_path, hpe]
    | false =>
      cases hg : (inodeTruthy (some ino) && !(parent == "") && fs.isdir parent) with
      | false => simp [resolve_file_path, hpe, hg]
      | true => simp [resolve_file_path, hpe, hg, hs, hm]
  · intro fs path parent ino hs
    cases hpe : fs.pathExists path with
    | true => simp [resolve_file_path, hpe]
    | false =>
      cases hg : (inodeTruthy (some ino) && !(parent == "") && fs.isdir parent) with
      | false => simp [resolve_file_path, hpe, hg]
      | true => simp [resolve_file_path, hpe, hg, hs]
  · intro fs ino e rest hstat
    simp [scanMatch, hstat]

/-- Witness for C9 at a concrete existing tracked entry. -/
theorem resolve_never_fails_witness :
    resolve_file_path fs9w (.tracked "x" (some 3) "d") = ("x", .tracked "x" (some 3) "d") :=
  resolve_never_fails.2.1 fs9w "x" (some 3) "d" rfl

/-- Claim C10: a stored inode of 0 (or an empty stored parent) is falsy in
the scan precondition, so resolution returns the stored path for every
filesystem — it never scans the parent, even when, concretely, the stored
path is gone and the parent holds an entry with matching inode 0; with the
same layout and nonzero inode 7 the scan does run and recovers the file. -/
theorem inode_zero_skips_scan :
    (∀ (fs : FS) (path parent : String),
        resolve_file_path fs (.tracked path (some 0) parent) =
          (path, .tracked path (some 0) parent)) ∧
    (∀ (fs : FS) (path : String) (inode : Option Nat),
        resolve_file_path fs (.tracked path inode "") =
          (path, .tracked path inode "")) ∧
    (resolve_file_path c10_fs_zero (.tracked "d/old" (some 0) "d") =
       ("d/old", .tracked "d/old" (some 0) "d") ∧
     resolve_file_path c10_fs_seven (.tracked "d/old" (some 7) "d") =
       ("d/new", .tracked "d/new" (some 7) "d")) := by
  refine ⟨?_, ?_, by decide, by decide⟩
  · intro fs path parent
    cases hpe : fs.pathExists path <;> simp [resolve_file_path, hpe, inodeTruthy]
  · intro fs path inode
    cases hpe : fs.pathExists path <;> simp [resolve_file_path, hpe]

end ShortcutApp
